import Mathlib

/-!
Verification of the TouchGFX sitemap scraper (`src/touchgfx/app.py`).

The program is a linear batch pipeline: fetch a sitemap over HTTP, parse its
XML into URL records, filter records against an exclusion regular expression,
probe each surviving URL (HTTP HEAD headers and HTML metadata) for
last-modified information, and write the enriched records to a CSV file.

Shallow embedding conventions:
* `xml.etree.ElementTree.fromstring` is a library boundary: its output is
  modelled by the `XmlElement` tree type, and where a whole-text-input view
  is needed the library call appears as an oracle parameter
  `fromstring : String → Except String XmlElement`.
* HTTP traffic is modelled by oracle parameters: a HEAD probe yields a
  `HeadResult` (transport failure, or a header list), a GET-plus-parse of a
  page yields `Option (List HtmlNode)` (`none` = the catch-all exception
  branch of `get_last_modified_from_html`).
* Python `None` for an optional string value is `Option.none`; Python string
  truthiness (`if s:`) is the explicit non-empty-string test.
* `re.match` with the pattern `https://support\.touchgfx\.com/4\.[12].*` is
  a start-anchored match, equivalent to a prefix test against
  `https://support.touchgfx.com/4.1` / `.../4.2`.
-/

set_option maxRecDepth 8192

/-- An XML element as produced by `xml.etree.ElementTree.fromstring`:
a (namespace-qualified) tag, the optional text directly following the start
tag (`Element.text`, `None` for an empty element), and the list of child
elements in document order. -/
inductive XmlElement where
  | mk (tag : String) (text : Option String) (children : List XmlElement)

/-- The tag of an element (`Element.tag`). -/
def XmlElement.tag : XmlElement → String
  | .mk t _ _ => t

/-- The text of an element (`Element.text`). -/
def XmlElement.text : XmlElement → Option String
  | .mk _ s _ => s

/-- The child elements of an element, in document order. -/
def XmlElement.children : XmlElement → List XmlElement
  | .mk _ _ cs => cs

/-- `element.find(path, ns)` for a single-step path: the first direct child
with the given (namespace-expanded) tag, or `None`. -/
def XmlElement.findChild (e : XmlElement) (tag : String) : Option XmlElement :=
  e.children.find? (fun c => c.tag == tag)

/-- `element.findall(path, ns)` for a single-step path: all direct children
with the given (namespace-expanded) tag, in document order. -/
def XmlElement.findAll (e : XmlElement) (tag : String) : List XmlElement :=
  e.children.filter (fun c => c.tag == tag)

/-- ElementTree expands `ns:url` with
`namespace = {'ns': 'http://www.sitemaps.org/schemas/sitemap/0.9'}` to this
qualified tag. -/
def nsTagUrl : String := "\x7bhttp://www.sitemaps.org/schemas/sitemap/0.9\x7durl"

/-- Qualified tag for `ns:loc`. -/
def nsTagLoc : String := "\x7bhttp://www.sitemaps.org/schemas/sitemap/0.9\x7dloc"

/-- Qualified tag for `ns:changefreq`. -/
def nsTagChangefreq : String :=
  "\x7bhttp://www.sitemaps.org/schemas/sitemap/0.9\x7dchangefreq"

/-- Qualified tag for `ns:priority`. -/
def nsTagPriority : String :=
  "\x7bhttp://www.sitemaps.org/schemas/sitemap/0.9\x7dpriority"

/-- Qualified tag for `ns:lastmod`. -/
def nsTagLastmod : String :=
  "\x7bhttp://www.sitemaps.org/schemas/sitemap/0.9\x7dlastmod"

/-- `self.url_pattern.match(url)` with
`url_pattern = re.compile(r'https://support\.touchgfx\.com/4\.[12].*')`:
`re.match` anchors at the start of the string and `.*` matches any (possibly
empty) tail, so the match succeeds exactly when `url` starts with
`https://support.touchgfx.com/4.1` or `https://support.touchgfx.com/4.2`. -/
def url_pattern_match (url : String) : Bool :=
  url.startsWith "https://support.touchgfx.com/4.1" ||
  url.startsWith "https://support.touchgfx.com/4.2"

/-- A URL record: the dict built per `<url>` element by `parse_sitemap`.
`url` is a genuine string (the code checks `url is not None`); the three
optional fields hold `none` exactly when the Python dict holds `None`
(element present but `Element.text` is `None`). -/
structure URLRecord where
  url : String
  changefreq : Option String
  priority : Option String
  lastmod : Option String
deriving DecidableEq, Repr

/-- The conditional expression
`X_element.text if X_element is not None else ''` used for each of the three
optional fields of the record built by `parse_sitemap`. -/
def optional_text (url_element : XmlElement) (tag : String) : Option String :=
  match url_element.findChild tag with
  | some e => e.text
  | none => some ""

/-- The loop body of `parse_sitemap` for one `<url>` element: find the
`loc`/`changefreq`/`priority`/`lastmod` children, and if a `loc` child exists,
its text is not `None` and the text does not match `url_pattern`, build the
record; otherwise the element contributes nothing. -/
def record_of_url_element (url_element : XmlElement) : Option URLRecord :=
  match url_element.findChild nsTagLoc with
  | none => none
  | some loc_element =>
    match loc_element.text with
    | none => none
    | some url =>
      if url_pattern_match url then none
      else
        some { url := url
               changefreq := optional_text url_element nsTagChangefreq
               priority := optional_text url_element nsTagPriority
               lastmod := optional_text url_element nsTagLastmod }

/-- `parse_sitemap` after the `ET.fromstring` library call: iterate over
`root.findall('ns:url', namespace)` in document order, appending the record
built by the loop body whenever it produces one. -/
def parse_sitemap (root : XmlElement) : List URLRecord :=
  (root.findAll nsTagUrl).filterMap record_of_url_element

/-- `parse_sitemap` on the raw XML text, with `ET.fromstring` as an oracle:
a parse error propagates (`raise` in the `except ET.ParseError` branch),
otherwise the record extraction loop runs on the resulting root element. -/
def parse_sitemap_of_text (fromstring : String → Except String XmlElement)
    (xml_content : String) : Except String (List URLRecord) :=
  match fromstring xml_content with
  | .error e => .error e
  | .ok root => .ok (parse_sitemap root)

/-- Outcome of the `session.head(...)` call in `get_last_modified_from_page`:
either a `requests.RequestException` (the `except` branch), or a response
carrying its header list. -/
inductive HeadResult where
  | failure (msg : String)
  | response (headers : List (String × String))

/-- ASCII lowercase of a character (header names are ASCII). -/
def ascii_lower (c : Char) : Char :=
  if 'A' ≤ c ∧ c ≤ 'Z' then Char.ofNat (c.toNat + 32) else c

/-- ASCII lowercase of a string. -/
def lower_ascii (s : String) : String := ⟨s.data.map ascii_lower⟩

/-- `response.headers.get(name)`: `requests` header dictionaries are
case-insensitive, so the lookup compares names case-insensitively and returns
the first matching header's value. -/
def header_get (headers : List (String × String)) (name : String) :
    Option String :=
  (headers.find? (fun p => lower_ascii p.1 == lower_ascii name)).map
    (fun p => p.2)

/-- `get_last_modified_from_page`: on transport failure return `None`;
otherwise return the `Last-Modified` header value if truthy (present and
non-empty), then the `Date` header value if truthy, else `None`. -/
def get_last_modified_from_page (res : HeadResult) : Option String :=
  match res with
  | .failure _ => none
  | .response headers =>
    let last_modified := header_get headers "Last-Modified"
    if last_modified.getD "" ≠ "" then last_modified
    else
      let date_header := header_get headers "Date"
      if date_header.getD "" ≠ "" then date_header
      else none

/-- An HTML start tag as seen by `BeautifulSoup.find`: tag name and
attribute list. The parsed document is flattened to the list of its tags in
document (pre-)order, which is the order `find` searches. -/
structure HtmlNode where
  tag : String
  attrs : List (String × String)
deriving DecidableEq, Repr

/-- `node.get(attr)` / `node[attr]`: first value bound to the attribute. -/
def HtmlNode.attr (n : HtmlNode) (name : String) : Option String :=
  (n.attrs.find? (fun p => p.1 == name)).map (fun p => p.2)

/-- `soup.find('meta', attrs={'name': 'last-modified'})`: the first `meta`
tag whose `name` attribute is `last-modified`. -/
def find_meta_last_modified (doc : List HtmlNode) : Option HtmlNode :=
  doc.find? (fun n => n.tag == "meta" && n.attr "name" == some "last-modified")

/-- `soup.find(attrs={'itemprop': 'dateModified'})`: the first tag (of any
name) whose `itemprop` attribute is `dateModified`. -/
def find_itemprop_dateModified (doc : List HtmlNode) : Option HtmlNode :=
  doc.find? (fun n => n.attr "itemprop" == some "dateModified")

/-- `get_last_modified_from_html`, taking the fetched-and-parsed document as
input (`none` = any exception in the GET or the parse, caught by the
catch-all `except`): if a `<meta name="last-modified">` tag exists and its
`content` attribute is truthy, return it; else if a tag with
`itemprop="dateModified"` exists and its `content` attribute is truthy,
return that; else `None`. -/
def get_last_modified_from_html (doc : Option (List HtmlNode)) :
    Option String :=
  match doc with
  | none => none
  | some soup =>
    let meta := find_meta_last_modified soup
    match meta with
    | some m =>
      if (m.attr "content").getD "" ≠ "" then m.attr "content"
      else
        match find_itemprop_dateModified soup with
        | some s => if (s.attr "content").getD "" ≠ "" then s.attr "content"
                    else none
        | none => none
    | none =>
      match find_itemprop_dateModified soup with
      | some s => if (s.attr "content").getD "" ≠ "" then s.attr "content"
                  else none
      | none => none

/-- The module-level constant `MAX_URLS_TO_FETCH = 10`. -/
def MAX_URLS_TO_FETCH : Nat := 10

/-- An enriched record: the result dict built per probed URL by
`scrape_pages`. The first four fields are copied from the URL record
(`sitemap_lastmod` from `lastmod`); the two probe fields are strings because
the code applies `... or ''`. -/
structure EnrichedRecord where
  url : String
  changefreq : Option String
  priority : Option String
  sitemap_lastmod : Option String
  http_last_modified : String
  http_last_modified2 : String
deriving DecidableEq, Repr

/-- `scrape_pages`: truncate the input to `MAX_URLS_TO_FETCH` records
(`urls_data[:MAX_URLS_TO_FETCH]`), then for each record in order issue the
HEAD probe and the HTML probe on its `url` and append the result dict.
The network is the pair of oracles `headOf` (response to
`session.head(url, ...)`) and `htmlOf` (fetched-and-parsed document of
`session.get(url, ...)`). `x or ''` maps `None` (and `''`) to `''`.
The `time.sleep(FETCH_DELAY)` between iterations has no effect on the
returned data and is not modelled. -/
def scrape_pages (headOf : String → HeadResult)
    (htmlOf : String → Option (List HtmlNode))
    (urls_data : List URLRecord) : List EnrichedRecord :=
  (urls_data.take MAX_URLS_TO_FETCH).map (fun url_data =>
    { url := url_data.url
      changefreq := url_data.changefreq
      priority := url_data.priority
      sitemap_lastmod := url_data.lastmod
      http_last_modified :=
        (get_last_modified_from_page (headOf url_data.url)).getD ""
      http_last_modified2 :=
        (get_last_modified_from_html (htmlOf url_data.url)).getD "" })

/-- Observable outcome of `TouchGFXSitemapScraper.run`:
* `fatal e` — an exception propagated out of `run` (fetch or parse raised
  before `save_to_csv` was ever reached, so no CSV file was written);
* `empty r` — the `if not urls_data` early return: no page probed, no CSV
  written, return value `r` (the code returns `""`);
* `wrote records filename` — `save_to_csv` wrote `records` to `filename`
  and `run` returned `filename`. -/
inductive RunResult where
  | fatal (err : String)
  | empty (returnValue : String)
  | wrote (csvRecords : List EnrichedRecord) (filename : String)
deriving DecidableEq

/-- `run`: fetch the sitemap (oracle `fetch_result`; `fetch_sitemap`
re-raises any `requests.RequestException`, including the one from
`raise_for_status` on a non-success status), parse it
(`parse_sitemap_of_text`, re-raising `ET.ParseError`), return `""` early if
no record survived filtering, otherwise probe the (capped) records and write
them to the CSV file (`default_filename` stands for the
`save_to_csv`-generated timestamped path). -/
def run (fetch_result : Except String String)
    (fromstring : String → Except String XmlElement)
    (headOf : String → HeadResult)
    (htmlOf : String → Option (List HtmlNode))
    (default_filename : String) : RunResult :=
  match fetch_result with
  | .error e => .fatal e
  | .ok xml_content =>
    match parse_sitemap_of_text fromstring xml_content with
    | .error e => .fatal e
    | .ok urls_data =>
      if urls_data.isEmpty then .empty ""
      else .wrote (scrape_pages headOf htmlOf urls_data) default_filename

/-- Observable outcome of `main()`: either the `try` body completed and the
success lines were printed, or the `except Exception` branch caught the
error and printed it with the elapsed time. In both cases `main` returns
normally — no exception escapes the program. -/
inductive MainOutcome where
  | completed (returnValue : String)
  | reportedError (err : String)
deriving DecidableEq

/-- `main()`: run the scraper; a fatal `RunResult` is caught by the
top-level `except Exception` handler and reported, any other outcome leads
to the success report with `run`'s return value. -/
def main_program (fetch_result : Except String String)
    (fromstring : String → Except String XmlElement)
    (headOf : String → HeadResult)
    (htmlOf : String → Option (List HtmlNode))
    (default_filename : String) : MainOutcome :=
  match run fetch_result fromstring headOf htmlOf default_filename with
  | .fatal e => .reportedError e
  | .empty r => .completed r
  | .wrote _ filename => .completed filename

/-- Spec-side inclusion predicate for a `<url>` element (from the spec's
words): its `<loc>` text is present, non-empty, and does not match the
exclusion pattern. -/
def spec_loc_included (url_element : XmlElement) : Bool :=
  match url_element.findChild nsTagLoc with
  | some loc_element =>
    match loc_element.text with
    | some s => (s != "") && !url_pattern_match s
    | none => false
  | none => false

/-- The `<loc>` text of a `<url>` element (empty string if absent). -/
def spec_loc_text (url_element : XmlElement) : String :=
  ((url_element.findChild nsTagLoc).bind XmlElement.text).getD ""

/-- Pointwise correspondence between the loop body of `parse_sitemap` and
the spec-side inclusion predicate, on elements none of whose children has
empty-string text (`ET.fromstring` gives empty elements text `None`, never
`''`). -/
lemma record_of_spec (u : XmlElement)
    (h : ∀ c ∈ u.children, c.text ≠ some "") :
    (record_of_url_element u = none ∧ spec_loc_included u = false) ∨
    (∃ r, record_of_url_element u = some r ∧ spec_loc_included u = true ∧
      r.url = spec_loc_text u) := by
  cases hfind : u.findChild nsTagLoc with
  | none =>
    left
    constructor
    · simp [record_of_url_element, hfind]
    · simp [spec_loc_included, hfind]
  | some loc =>
    cases htext : loc.text with
    | none =>
      left
      constructor
      · simp [record_of_url_element, hfind, htext]
      · simp [spec_loc_included, hfind, htext]
    | some s =>
      have hs : s ≠ "" := by
        have hmem : loc ∈ u.children :=
          List.mem_of_find?_eq_some (by simpa [XmlElement.findChild] using hfind)
        intro he
        exact h loc hmem (by rw [htext, he])
      cases hp : url_pattern_match s with
      | true =>
        left
        constructor
        · simp [record_of_url_element, hfind, htext, hp]
        · simp [spec_loc_included, hfind, htext, hp]
      | false =>
        right
        refine ⟨{ url := s
                  changefreq := optional_text u nsTagChangefreq
                  priority := optional_text u nsTagPriority
                  lastmod := optional_text u nsTagLastmod }, ?_, ?_, ?_⟩
        · simp [record_of_url_element, hfind, htext, hp]
        · simp [spec_loc_included, hfind, htext, hp, hs]
        · simp [spec_loc_text, hfind, htext]

/-- The extraction loop agrees, element by element and in order, with the
spec-side filter, on url-element lists whose children carry no empty-string
text. -/
lemma filterMap_record_of_spec (L : List XmlElement)
    (h : ∀ u ∈ L, ∀ c ∈ u.children, c.text ≠ some "") :
    (L.filterMap record_of_url_element).map URLRecord.url
      = (L.filter spec_loc_included).map spec_loc_text := by
  induction L with
  | nil => rfl
  | cons u L ih =>
    have hu : ∀ c ∈ u.children, c.text ≠ some "" := h u (by simp)
    have hL : ∀ v ∈ L, ∀ c ∈ v.children, c.text ≠ some "" :=
      fun v hv => h v (by simp [hv])
    rcases record_of_spec u hu with ⟨h1, h2⟩ | ⟨r, h1, h2, h3⟩
    · simp [List.filterMap_cons, List.filter_cons, h1, h2, ih hL]
    · simp [List.filterMap_cons, List.filter_cons, h1, h2, h3, ih hL]

/-- Claim C1: on any sitemap tree whose elements have no empty-string text
(which is every tree `ET.fromstring` can produce — empty elements get text
`None`), `parse_sitemap` returns exactly one URL Record per `<url>` element
whose `<loc>` text is present, non-empty and not excluded, in document
order, the record's `url` being that `<loc>` text; all other `<url>`
elements are skipped. -/
theorem parse_sitemap_included_urls (root : XmlElement)
    (hreal : ∀ u ∈ root.children, ∀ c ∈ u.children, c.text ≠ some "") :
    (parse_sitemap root).map URLRecord.url
      = ((root.findAll nsTagUrl).filter spec_loc_included).map spec_loc_text := by
  unfold parse_sitemap
  refine filterMap_record_of_spec _ (fun u hu => hreal u ?_)
  unfold XmlElement.findAll at hu
  exact List.mem_of_mem_filter hu

/-- A concrete sitemap tree with three `<url>` entries, one of which matches
the exclusion pattern (the spec's three-entry scenario). -/
def w1_root : XmlElement :=
  .mk "urlset" none
    [.mk nsTagUrl none
       [.mk nsTagLoc (some "https://support.touchgfx.com/docs/a") []],
     .mk nsTagUrl none
       [.mk nsTagLoc (some "https://support.touchgfx.com/4.20/docs") []],
     .mk nsTagUrl none
       [.mk nsTagLoc (some "https://support.touchgfx.com/intro") []]]

/-- Witness for `parse_sitemap_included_urls` on `w1_root`: the hypothesis
holds and two of the three entries survive. -/
theorem parse_sitemap_included_urls_witness :
    (∀ u ∈ w1_root.children, ∀ c ∈ u.children, c.text ≠ some "") ∧
    (parse_sitemap w1_root).map URLRecord.url
      = ((w1_root.findAll nsTagUrl).filter spec_loc_included).map
          spec_loc_text :=
  ⟨by decide, parse_sitemap_included_urls w1_root (by decide)⟩

/-- A `<url>` element whose `<changefreq>` child is present but empty: its
`Element.text` is `None`, so the record field becomes `None`, not `''`. -/
def c4_root : XmlElement :=
  .mk "urlset" none
    [.mk nsTagUrl none
       [.mk nsTagLoc (some "https://example.com/a") [],
        .mk nsTagChangefreq none []]]

/-- Counterexample to claim C4: for a sitemap whose `<changefreq>` element
is present but has no text, the produced URL Record's `changefreq` is the
missing value `None`, not a string — the empty-string default applies only
when the element itself is absent. -/
theorem parse_sitemap_none_field_counterexample :
    (parse_sitemap c4_root).map URLRecord.changefreq = [none] ∧
    ¬ (∀ r ∈ parse_sitemap c4_root,
        r.changefreq.isSome ∧ r.priority.isSome ∧ r.lastmod.isSome) := by
  constructor
  · rfl
  · decide

/-- The per-field default expression of the loop body has a present value
whenever every child of the `<url>` element carries text. -/
lemma default_text_isSome (u : XmlElement) (tag : String)
    (h : ∀ c ∈ u.children, c.text.isSome) :
    (optional_text u tag).isSome := by
  unfold optional_text
  cases hf : u.findChild tag with
  | none => simp
  | some e =>
    simpa using h e
      (List.mem_of_find?_eq_some (by simpa [XmlElement.findChild] using hf))

/-- Claim C4 (amended): `url` is always a string; each optional field
defaults to the empty string exactly when its element is absent, and
otherwise takes the element's text as-is — so all four fields are strings
provided every present optional element carries a text value (an element
present without text yields the missing value `None` instead). -/
theorem parse_sitemap_field_defaults :
    (∀ root : XmlElement,
      (∀ u ∈ root.children, ∀ c ∈ u.children, c.text.isSome) →
      ∀ r ∈ parse_sitemap root,
        r.changefreq.isSome ∧ r.priority.isSome ∧ r.lastmod.isSome) ∧
    (∀ (u : XmlElement) (r : URLRecord), record_of_url_element u = some r →
      (u.findChild nsTagChangefreq = none → r.changefreq = some "") ∧
      (u.findChild nsTagPriority = none → r.priority = some "") ∧
      (u.findChild nsTagLastmod = none → r.lastmod = some "")) := by
  constructor
  · intro root h r hr
    unfold parse_sitemap at hr
    rcases List.mem_filterMap.mp hr with ⟨u, hu, heq⟩
    have hchild : ∀ c ∈ u.children, c.text.isSome := by
      unfold XmlElement.findAll at hu
      exact h u (List.mem_of_mem_filter hu)
    unfold record_of_url_element at heq
    split at heq
    · exact Option.noConfusion heq
    split at heq
    · exact Option.noConfusion heq
    split at heq
    · exact Option.noConfusion heq
    injection heq with heq
    subst heq
    exact ⟨default_text_isSome u nsTagChangefreq hchild,
           default_text_isSome u nsTagPriority hchild,
           default_text_isSome u nsTagLastmod hchild⟩
  · intro u r h
    unfold record_of_url_element at h
    split at h
    · exact Option.noConfusion h
    split at h
    · exact Option.noConfusion h
    split at h
    · exact Option.noConfusion h
    injection h with h
    subst h
    refine ⟨?_, ?_, ?_⟩ <;> intro habs <;> simp [optional_text, habs]

/-- A `<url>` element with all optional elements present and carrying
text. -/
def w4_root : XmlElement :=
  .mk "urlset" none
    [.mk nsTagUrl none
       [.mk nsTagLoc (some "https://example.com/b") [],
        .mk nsTagChangefreq (some "weekly") [],
        .mk nsTagLastmod (some "2024-05-01") []]]

/-- Witness for `parse_sitemap_field_defaults` on `w4_root`. -/
theorem parse_sitemap_field_defaults_witness :
    (∀ u ∈ w4_root.children, ∀ c ∈ u.children, c.text.isSome) ∧
    (∀ r ∈ parse_sitemap w4_root,
      r.changefreq.isSome ∧ r.priority.isSome ∧ r.lastmod.isSome) :=
  ⟨by decide, parse_sitemap_field_defaults.1 w4_root (by decide)⟩

/-- Claim C2: for every list of filtered URL Records, `scrape_pages` emits at
most `MAX_URLS_TO_FETCH` Enriched Records, exactly `min (input length)
MAX_URLS_TO_FETCH` of them (the number of records actually probed), and the
`i`-th Enriched Record's `url` equals the `i`-th input URL Record's `url`. -/
theorem scrape_pages_count (headOf : String → HeadResult)
    (htmlOf : String → Option (List HtmlNode)) (urls_data : List URLRecord) :
    (scrape_pages headOf htmlOf urls_data).length
        = min urls_data.length MAX_URLS_TO_FETCH ∧
    (scrape_pages headOf htmlOf urls_data).length ≤ MAX_URLS_TO_FETCH ∧
    ∀ i (hi : i < (scrape_pages headOf htmlOf urls_data).length)
      (hj : i < urls_data.length),
      ((scrape_pages headOf htmlOf urls_data).get ⟨i, hi⟩).url
        = (urls_data.get ⟨i, hj⟩).url := by
  refine ⟨?_, ?_, ?_⟩
  · simp [scrape_pages, Nat.min_comm]
  · simp [scrape_pages]
  · intro i hi hj
    simp [scrape_pages, List.get_eq_getElem, List.getElem_map,
      List.getElem_take]

/-- Witness for `scrape_pages_count` at a concrete two-record input with
trivially failing probes. -/
theorem scrape_pages_count_witness :
    (0 < (scrape_pages (fun _ => .failure "down") (fun _ => none)
        [⟨"a", some "", some "", some ""⟩,
         ⟨"b", some "", some "", some ""⟩]).length) ∧
    (0 < 2) ∧
    ((scrape_pages (fun _ => .failure "down") (fun _ => none)
        [⟨"a", some "", some "", some ""⟩,
         ⟨"b", some "", some "", some ""⟩]).get
        ⟨0, by decide⟩).url
      = (([⟨"a", some "", some "", some ""⟩,
           ⟨"b", some "", some "", some ""⟩] : List URLRecord).get
          ⟨0, by decide⟩).url :=
  ⟨by decide, by decide,
    (scrape_pages_count (fun _ => .failure "down") (fun _ => none)
      [⟨"a", some "", some "", some ""⟩,
       ⟨"b", some "", some "", some ""⟩]).2.2 0 (by decide) (by decide)⟩

/-- Claim C10: `scrape_pages` preserves input order — the `i`-th Enriched
Record is derived from the `i`-th URL Record of the capped input — copying
`url`, `changefreq` and `priority` unchanged, `lastmod` into
`sitemap_lastmod`, and adding only the two probe-result fields. -/
theorem scrape_pages_order_frame (headOf : String → HeadResult)
    (htmlOf : String → Option (List HtmlNode)) (urls_data : List URLRecord) :
    ∀ i (hi : i < (scrape_pages headOf htmlOf urls_data).length)
      (hj : i < urls_data.length),
      ((scrape_pages headOf htmlOf urls_data).get ⟨i, hi⟩)
        = { url := (urls_data.get ⟨i, hj⟩).url
            changefreq := (urls_data.get ⟨i, hj⟩).changefreq
            priority := (urls_data.get ⟨i, hj⟩).priority
            sitemap_lastmod := (urls_data.get ⟨i, hj⟩).lastmod
            http_last_modified :=
              (get_last_modified_from_page
                (headOf (urls_data.get ⟨i, hj⟩).url)).getD ""
            http_last_modified2 :=
              (get_last_modified_from_html
                (htmlOf (urls_data.get ⟨i, hj⟩).url)).getD "" } := by
  intro i hi hj
  simp [scrape_pages, List.get_eq_getElem, List.getElem_map,
    List.getElem_take]

/-- Witness for `scrape_pages_order_frame` at a concrete one-record input. -/
theorem scrape_pages_order_frame_witness :
    ((scrape_pages (fun _ => .failure "down") (fun _ => none)
        [⟨"a", some "w", some "0.5", some "2024"⟩]).get ⟨0, by decide⟩)
      = { url := "a", changefreq := some "w", priority := some "0.5"
          sitemap_lastmod := some "2024", http_last_modified := ""
          http_last_modified2 := "" } := by
  have h := scrape_pages_order_frame (fun _ => .failure "down") (fun _ => none)
    [⟨"a", some "w", some "0.5", some "2024"⟩] 0 (by decide) (by decide)
  simpa using h

/-- Eleven filtered URL Records with pairwise-distinct urls, one more than
`MAX_URLS_TO_FETCH`; none of the urls matches the exclusion pattern. -/
def c3_urls : List URLRecord :=
  [⟨"u0", none, none, none⟩, ⟨"u1", none, none, none⟩,
   ⟨"u2", none, none, none⟩, ⟨"u3", none, none, none⟩,
   ⟨"u4", none, none, none⟩, ⟨"u5", none, none, none⟩,
   ⟨"u6", none, none, none⟩, ⟨"u7", none, none, none⟩,
   ⟨"u8", none, none, none⟩, ⟨"u9", none, none, none⟩,
   ⟨"u10", none, none, none⟩]

/-- Counterexample to claim C3: with eleven filtered URL Records none of
which matches the exclusion pattern, the eleventh (`u10`) appears zero
times — not exactly once — in the Enriched output, because `scrape_pages`
truncates its input to `MAX_URLS_TO_FETCH = 10` records. -/
theorem scrape_pages_drops_excess_counterexample :
    url_pattern_match "u10" = false ∧
    "u10" ∈ c3_urls.map URLRecord.url ∧
    ∀ e ∈ scrape_pages (fun _ => .failure "down") (fun _ => none) c3_urls,
      e.url ≠ "u10" := by decide

/-- Claim C3 (amended): every URL Record among the first
`MAX_URLS_TO_FETCH` records of the filtered input appears exactly once in
the Enriched output (given pairwise-distinct urls), at its own position,
with `sitemap_lastmod` equal to its original `lastmod`; records beyond the
cap are dropped. -/
theorem scrape_pages_capped_exactly_once (headOf : String → HeadResult)
    (htmlOf : String → Option (List HtmlNode)) (urls_data : List URLRecord)
    (hnodup : (urls_data.map URLRecord.url).Nodup) :
    ∀ i (hi : i < (scrape_pages headOf htmlOf urls_data).length)
      (hj : i < urls_data.length),
      ((scrape_pages headOf htmlOf urls_data).get ⟨i, hi⟩).url
          = (urls_data.get ⟨i, hj⟩).url ∧
      ((scrape_pages headOf htmlOf urls_data).get ⟨i, hi⟩).sitemap_lastmod
          = (urls_data.get ⟨i, hj⟩).lastmod ∧
      ((scrape_pages headOf htmlOf urls_data).countP
          (fun e => e.url == (urls_data.get ⟨i, hj⟩).url)) = 1 := by
  intro i hi hj
  have hiMAX : i < MAX_URLS_TO_FETCH := by
    have h2 := hi
    simp [scrape_pages, List.length_take] at h2
    omega
  refine ⟨?_, ?_, ?_⟩
  · simp [scrape_pages, List.get_eq_getElem, List.getElem_map,
      List.getElem_take]
  · simp [scrape_pages, List.get_eq_getElem, List.getElem_map,
      List.getElem_take]
  · have h1 : (scrape_pages headOf htmlOf urls_data).countP
        (fun e => e.url == (urls_data.get ⟨i, hj⟩).url)
        = ((urls_data.map URLRecord.url).take MAX_URLS_TO_FETCH).count
            ((urls_data.get ⟨i, hj⟩).url) := by
      unfold scrape_pages
      rw [List.countP_map, List.count_eq_countP, ← List.map_take,
        List.countP_map]
      rfl
    rw [h1]
    have hnd : ((urls_data.map URLRecord.url).take MAX_URLS_TO_FETCH).Nodup :=
      (List.take_sublist _ _).nodup hnodup
    have hlen : i <
        ((urls_data.map URLRecord.url).take MAX_URLS_TO_FETCH).length := by
      simp [List.length_take]
      omega
    have hmem : (urls_data.get ⟨i, hj⟩).url
        ∈ (urls_data.map URLRecord.url).take MAX_URLS_TO_FETCH := by
      have hm := List.getElem_mem hlen
      have heq : ((urls_data.map URLRecord.url).take MAX_URLS_TO_FETCH)[i]
          = (urls_data.get ⟨i, hj⟩).url := by
        simp [List.getElem_take, List.getElem_map, List.get_eq_getElem]
      rwa [heq] at hm
    exact List.count_eq_one_of_mem hnd hmem

/-- Witness for `scrape_pages_capped_exactly_once` on a one-record input. -/
theorem scrape_pages_capped_exactly_once_witness :
    (([⟨"a", none, none, some "L"⟩] :
        List URLRecord).map URLRecord.url).Nodup ∧
    ((scrape_pages (fun _ => .failure "down") (fun _ => none)
        [⟨"a", none, none, some "L"⟩]).countP
        (fun e => e.url == "a")) = 1 :=
  ⟨by decide,
    (scrape_pages_capped_exactly_once (fun _ => .failure "down")
      (fun _ => none) [⟨"a", none, none, some "L"⟩] (by decide)
      0 (by decide) (by decide)).2.2⟩

/-- Claim C5: parsing is deterministic — the same XML text (under the same
`ET.fromstring` behavior) yields the same sequence of URL Records. -/
theorem parse_sitemap_deterministic
    (fromstring : String → Except String XmlElement) (xml_content : String) :
    parse_sitemap_of_text fromstring xml_content
      = parse_sitemap_of_text fromstring xml_content := rfl

/-- Claim C8: if the sitemap fetch fails, `run` raises before `save_to_csv`
is ever reached (the outcome is `fatal`, never `wrote`; no CSV is written),
and `main` catches the exception at top level and reports it — no exception
escapes the program. -/
theorem fetch_failure_aborts (e : String)
    (fromstring : String → Except String XmlElement)
    (headOf : String → HeadResult)
    (htmlOf : String → Option (List HtmlNode)) (fn : String) :
    run (.error e) fromstring headOf htmlOf fn = .fatal e ∧
    (∀ recs f, run (.error e) fromstring headOf htmlOf fn ≠ .wrote recs f) ∧
    main_program (.error e) fromstring headOf htmlOf fn = .reportedError e := by
  refine ⟨rfl, ?_, rfl⟩
  intro recs f h
  simp [run] at h

/-- Witness for `fetch_failure_aborts` at a concrete failed fetch. -/
theorem fetch_failure_aborts_witness :
    run (.error "HTTP 500") (fun _ => .ok (.mk "urlset" none []))
        (fun _ => .failure "down") (fun _ => none) "/tmp/out.csv"
      ≠ .wrote [] "/tmp/out.csv" :=
  (fetch_failure_aborts "HTTP 500" (fun _ => .ok (.mk "urlset" none []))
    (fun _ => .failure "down") (fun _ => none) "/tmp/out.csv").2.1 []
    "/tmp/out.csv"

/-- Claim C9: if zero URL Records survive filtering, `run` returns the empty
string early — for any probe oracles the outcome is `empty ""` (no page is
probed, nothing depends on the probe oracles) and never `wrote` (no CSV file
is written); `main` completes with the empty return value. -/
theorem empty_filter_early_return (xml : String) (root : XmlElement)
    (fromstring : String → Except String XmlElement)
    (headOf : String → HeadResult)
    (htmlOf : String → Option (List HtmlNode)) (fn : String)
    (hok : fromstring xml = .ok root)
    (hempty : parse_sitemap root = []) :
    run (.ok xml) fromstring headOf htmlOf fn = .empty "" ∧
    (∀ recs f, run (.ok xml) fromstring headOf htmlOf fn ≠ .wrote recs f) ∧
    main_program (.ok xml) fromstring headOf htmlOf fn = .completed "" := by
  have hrun : run (.ok xml) fromstring headOf htmlOf fn = .empty "" := by
    simp [run, parse_sitemap_of_text, hok, hempty]
  refine ⟨hrun, ?_, ?_⟩
  · intro recs f h
    rw [hrun] at h
    exact RunResult.noConfusion h
  · simp [main_program, hrun]

/-- Witness for `empty_filter_early_return`: a sitemap with no `<url>`
children yields zero records and an early empty return. -/
theorem empty_filter_early_return_witness :
    (fun (_ : String) => (.ok (.mk "urlset" none []) :
        Except String XmlElement)) "<urlset/>" = .ok (.mk "urlset" none []) ∧
    parse_sitemap (.mk "urlset" none []) = [] ∧
    run (.ok "<urlset/>")
        (fun _ => .ok (.mk "urlset" none []))
        (fun _ => .failure "down") (fun _ => none) "/tmp/out.csv"
      = .empty "" :=
  ⟨rfl, rfl,
    (empty_filter_early_return "<urlset/>" (.mk "urlset" none [])
      (fun _ => .ok (.mk "urlset" none []))
      (fun _ => .failure "down") (fun _ => none) "/tmp/out.csv"
      rfl rfl).1⟩

/-- HEAD-response headers with a present-but-empty `Last-Modified` and a
non-empty `Date`. -/
def c6_headers : List (String × String) :=
  [("Last-Modified", ""), ("Date", "Tue, 01 Jan 2030 00:00:00 GMT")]

/-- Counterexample to claim C6: when the `Last-Modified` header is present
with an empty value, `get_last_modified_from_page` does not return it — the
Python truthiness test `if last_modified:` treats it as absent and the
function falls back to the `Date` header. -/
theorem get_last_modified_from_page_counterexample :
    header_get c6_headers "Last-Modified" = some "" ∧
    get_last_modified_from_page (.response c6_headers)
      = some "Tue, 01 Jan 2030 00:00:00 GMT" ∧
    get_last_modified_from_page (.response c6_headers) ≠ some "" := by decide

/-- Claim C6 (amended): `get_last_modified_from_page` returns the
`Last-Modified` header value when present and non-empty, otherwise the
`Date` header value when present and non-empty, otherwise no value (an
empty header value is treated as absent); a request failure yields no value
and never aborts the batch. -/
theorem get_last_modified_from_page_spec :
    (∀ m, get_last_modified_from_page (.failure m) = none) ∧
    (∀ hs v, header_get hs "Last-Modified" = some v → v ≠ "" →
      get_last_modified_from_page (.response hs) = some v) ∧
    (∀ hs v, (header_get hs "Last-Modified" = none ∨
        header_get hs "Last-Modified" = some "") →
      header_get hs "Date" = some v → v ≠ "" →
      get_last_modified_from_page (.response hs) = some v) ∧
    (∀ hs, (header_get hs "Last-Modified" = none ∨
        header_get hs "Last-Modified" = some "") →
      (header_get hs "Date" = none ∨ header_get hs "Date" = some "") →
      get_last_modified_from_page (.response hs) = none) := by
  refine ⟨fun m => rfl, ?_, ?_, ?_⟩
  · intro hs v h1 hv
    simp [get_last_modified_from_page, h1, hv]
  · intro hs v h1 h2 hv
    rcases h1 with h1 | h1 <;>
      simp [get_last_modified_from_page, h1, h2, hv]
  · intro hs h1 h2
    rcases h1 with h1 | h1 <;> rcases h2 with h2 | h2 <;>
      simp [get_last_modified_from_page, h1, h2]

/-- Witness for `get_last_modified_from_page_spec`: the spec's Date-fallback
scenario (no `Last-Modified`, a `Date` header). -/
theorem get_last_modified_from_page_spec_witness :
    (header_get [("Date", "Tue, 01 Jan 2030 00:00:00 GMT")] "Last-Modified"
        = none ∨
     header_get [("Date", "Tue, 01 Jan 2030 00:00:00 GMT")] "Last-Modified"
        = some "") ∧
    header_get [("Date", "Tue, 01 Jan 2030 00:00:00 GMT")] "Date"
        = some "Tue, 01 Jan 2030 00:00:00 GMT" ∧
    get_last_modified_from_page
        (.response [("Date", "Tue, 01 Jan 2030 00:00:00 GMT")])
      = some "Tue, 01 Jan 2030 00:00:00 GMT" :=
  ⟨Or.inl (by decide), by decide,
    get_last_modified_from_page_spec.2.2.1
      [("Date", "Tue, 01 Jan 2030 00:00:00 GMT")]
      "Tue, 01 Jan 2030 00:00:00 GMT"
      (Or.inl (by decide)) (by decide) (by decide)⟩

/-- An HTML document with a `<meta name="last-modified">` tag carrying no
`content` attribute, plus an element with `itemprop="dateModified"`. -/
def c7_doc : List HtmlNode :=
  [⟨"meta", [("name", "last-modified")]⟩,
   ⟨"span", [("itemprop", "dateModified"), ("content", "2024-05-01")]⟩]

/-- Counterexample to claim C7: the `<meta name="last-modified">` tag is
present in `c7_doc`, yet `get_last_modified_from_html` consults the
`dateModified` itemprop anyway (the meta tag lacks a truthy `content`
attribute) and returns its value. -/
theorem get_last_modified_from_html_counterexample :
    (find_meta_last_modified c7_doc).isSome ∧
    ((find_meta_last_modified c7_doc).bind (fun m => m.attr "content"))
        = none ∧
    get_last_modified_from_html (some c7_doc) = some "2024-05-01" := by decide

/-- Claim C7 (amended): `get_last_modified_from_html` returns the content of
the first `<meta name="last-modified">` tag when that tag is present with a
non-empty `content` attribute; it consults the `dateModified` itemprop when
the meta tag is absent or lacks a (non-empty) `content` attribute; a request
or parsing failure yields no value and never aborts the batch. -/
theorem get_last_modified_from_html_spec :
    (get_last_modified_from_html none = none) ∧
    (∀ doc m c, find_meta_last_modified doc = some m →
      m.attr "content" = some c → c ≠ "" →
      get_last_modified_from_html (some doc) = some c) ∧
    (∀ doc m, find_meta_last_modified doc = some m →
      (m.attr "content" = none ∨ m.attr "content" = some "") →
      ∀ s c, find_itemprop_dateModified doc = some s →
        s.attr "content" = some c → c ≠ "" →
        get_last_modified_from_html (some doc) = some c) ∧
    (∀ doc, find_meta_last_modified doc = none →
      ∀ s c, find_itemprop_dateModified doc = some s →
        s.attr "content" = some c → c ≠ "" →
        get_last_modified_from_html (some doc) = some c) := by
  refine ⟨rfl, ?_, ?_, ?_⟩
  · intro doc m c hm hc hne
    simp [get_last_modified_from_html, hm, hc, hne]
  · intro doc m hm hc s c hs hsc hne
    rcases hc with hc | hc <;>
      simp [get_last_modified_from_html, hm, hc, hs, hsc, hne]
  · intro doc hm s c hs hsc hne
    simp [get_last_modified_from_html, hm, hs, hsc, hne]

/-- Witness for `get_last_modified_from_html_spec`: the spec's scenario of a
page containing `<meta name="last-modified" content="2024-05-01">`. -/
theorem get_last_modified_from_html_spec_witness :
    find_meta_last_modified
        [⟨"meta", [("name", "last-modified"), ("content", "2024-05-01")]⟩]
      = some ⟨"meta", [("name", "last-modified"), ("content", "2024-05-01")]⟩ ∧
    get_last_modified_from_html
        (some [⟨"meta", [("name", "last-modified"), ("content", "2024-05-01")]⟩])
      = some "2024-05-01" :=
  ⟨by decide,
    get_last_modified_from_html_spec.2.1
      [⟨"meta", [("name", "last-modified"), ("content", "2024-05-01")]⟩]
      ⟨"meta", [("name", "last-modified"), ("content", "2024-05-01")]⟩
      "2024-05-01" (by decide) (by decide) (by decide)⟩
